import Mathlib

/-!
# ocrbase — verification of the asynchronous job pipeline

A shallow embedding of the ocrbase repository's core pipeline:
the job state machine, worker failure classification, the LLM JSON
repair helper, the realtime gateway (SSE and WebSocket profiles),
the presigned-upload confirm flow, admission validation, and the
SDK client waiter.

Each definition mirrors one function of the TypeScript source
(`apps/server/src/...`, `packages/sdk/src/index.ts`).  Definitions
whose backing source file is not part of the provided tree
(`lib/job-status.ts`, `services/queue.ts`) are modelled from the
specification and are marked as such in their doc comments.
-/

namespace OcrBase

/-! ## JavaScript runtime values

A JSON-like universe for the JavaScript values the SDK and the LLM
service manipulate.  `obj` keeps fields as an association list; key
lookup returns the first binding, matching JS object semantics for
the string keys we model. -/

inductive Js where
  | null
  | bool (b : Bool)
  | num (n : Int)
  | str (s : String)
  | arr (xs : List Js)
  | obj (fields : List (String × Js))
deriving Repr

/-- First binding of a key in an object; `none` for absent keys and
for non-objects (reading a property of a non-object model value). -/
def Js.lookup : Js → String → Option Js
  | .obj fields, k => fields.lookup k
  | _, _ => none

/-- Source `isPlainObject` from `packages/sdk/src/index.ts`: a value whose
prototype is `Object.prototype` or `null`.  In this model exactly the
`obj` constructor (arrays and class instances are not plain). -/
def isPlainObject : Js → Bool
  | .obj _ => true
  | _ => false

/-- JS `typeof v === "object"`: true for `null`, arrays and objects. -/
def jsTypeofIsObject : Js → Bool
  | .null => true
  | .arr _ => true
  | .obj _ => true
  | _ => false

/-- Source `isRecord` from `apps/server/src/services/llm.ts`:
`typeof value === "object" && value !== null && !Array.isArray(value)`. -/
def isRecord : Js → Bool
  | .obj _ => true
  | _ => false

/-- Source `readString` from the SDK: a string value of positive length. -/
def readStringJs : Option Js → Option String
  | some (.str s) => if 0 < s.length then some s else none
  | _ => none

/-- Source `readNullableString` from the SDK: any string value. -/
def readNullableStringJs : Option Js → Option String
  | some (.str s) => some s
  | _ => none

/-- Source `readNumber` from the SDK: a finite number, else the fallback. -/
def readNumberJs (v : Option Js) (fallback : Int) : Int :=
  match v with
  | some (.num n) => n
  | _ => fallback

/-! ## SDK schema normalization (`packages/sdk/src/index.ts`) -/

/-- Source `JSON_SCHEMA_HINT_KEYS` from the SDK. -/
def JSON_SCHEMA_HINT_KEYS : List String :=
  ["$defs", "$schema", "additionalProperties", "allOf", "anyOf",
   "definitions", "items", "oneOf", "properties", "required"]

/-- Source `looksLikeJsonSchema`: a plain object carrying at least one
JSON-Schema hint key. -/
def looksLikeJsonSchema (schema : Js) : Bool :=
  isPlainObject schema &&
    JSON_SCHEMA_HINT_KEYS.any fun k => (schema.lookup k).isSome

/-- Source `isZodSchema`: `typeof schema === "object" && schema !== null &&
"_zod" in schema && typeof schema._zod === "object"`.  Note the inner
`typeof` test also accepts `null` and arrays. -/
def isZodSchema (schema : Js) : Bool :=
  match schema.lookup "_zod" with
  | some v => jsTypeofIsObject v
  | none => false

/-- Source `isPrimitiveSchema` string tags of the simple-schema syntax. -/
def isPrimitiveSchema (s : String) : Bool :=
  s = "boolean" || s = "date" || s = "integer" || s = "number" || s = "string"

/-- Source `SIMPLE_PRIMITIVE_TO_JSON_SCHEMA` lookup. -/
def simplePrimitiveToJsonSchema (s : String) : Js :=
  if s = "boolean" then .obj [("type", .str "boolean")]
  else if s = "date" then .obj [("format", .str "date"), ("type", .str "string")]
  else if s = "integer" then .obj [("type", .str "integer")]
  else if s = "number" then .obj [("type", .str "number")]
  else .obj [("type", .str "string")]

mutual

/-- Source `simpleSchemaNodeToJsonSchema`: recursive conversion of the SDK's
simple-schema syntax into JSON Schema; throws (`Except.error`) on
unsupported values. -/
def simpleSchemaNodeToJsonSchema : Js → Except String Js
  | .str s =>
    if isPrimitiveSchema s then .ok (simplePrimitiveToJsonSchema s)
    else .error "Unsupported schema value. Use simple schema strings, arrays, objects, zod, Elysia t.*, or JSON Schema."
  | .arr xs =>
    match xs with
    | [] => .ok (.obj [("items", .obj []), ("type", .str "array")])
    | x :: _ => do
      let items ← simpleSchemaNodeToJsonSchema x
      .ok (.obj [("items", items), ("type", .str "array")])
  | .obj fields => do
    let props ← simpleSchemaFields fields
    .ok (.obj [("additionalProperties", .bool false),
               ("properties", .obj props),
               ("required", .arr (fields.map fun f => .str f.1)),
               ("type", .str "object")])
  | _ => .error "Unsupported schema value. Use simple schema strings, arrays, objects, zod, Elysia t.*, or JSON Schema."

/-- Field-wise conversion for `simpleSchemaNodeToJsonSchema`. -/
def simpleSchemaFields : List (String × Js) → Except String (List (String × Js))
  | [] => .ok []
  | (k, v) :: rest => do
    let c ← simpleSchemaNodeToJsonSchema v
    let cs ← simpleSchemaFields rest
    .ok ((k, c) :: cs)

end

/-- Outcome of `schemaToJsonSchema`.  The `zodBranch` constructor marks
the branch that delegates to the external `z.toJSONSchema` library call,
which builds a fresh schema from zod internals (and throws on values
that merely carry a `_zod` property); it never returns its argument. -/
inductive SchemaNormOutcome where
  | passthrough (v : Js)
  | zodBranch
  | simple (v : Js)
  | failure (msg : String)
deriving Repr

/-- Source `schemaToJsonSchema` from the SDK: zod check first, then JSON-Schema
passthrough, then simple-schema conversion, else throw. -/
def schemaToJsonSchema (schema : Js) : SchemaNormOutcome :=
  if isZodSchema schema then .zodBranch
  else if looksLikeJsonSchema schema then .passthrough schema
  else if isPlainObject schema then
    match simpleSchemaNodeToJsonSchema schema with
    | .ok v => if isPlainObject v then .simple v else .failure "Invalid simple schema."
    | .error m => .failure m
  else .failure "Unsupported schema type. Use simple object syntax, Elysia t.*, zod, or JSON Schema."

/-! ## Worker failure classification (`apps/server/src/workers/job.worker.ts`) -/

/-- Prefix test on character lists. -/
def charListStartsWith : List Char → List Char → Bool
  | [], _ => true
  | _ :: _, [] => false
  | a :: as, b :: bs => a = b && charListStartsWith as bs

/-- Substring test on character lists (needle occurs inside hay). -/
def charListHasSub (needle : List Char) : List Char → Bool
  | [] => needle.isEmpty
  | c :: t => charListStartsWith needle (c :: t) || charListHasSub needle t

/-- Case-insensitive regex-alternation test: the lower-cased message
contains one of the (lower-case literal) pattern alternatives. -/
def matchesAny (pats : List String) (msg : String) : Bool :=
  pats.any fun p => charListHasSub p.data (msg.data.map Char.toLower)

/-- The alternatives of `RETRYABLE_MESSAGE_PATTERN` (a `/.../i` regex of
literal alternatives in the worker). -/
def retryablePatterns : List String :=
  ["timed out", "timeout", "connection error", "econnreset", "econnrefused",
   "enotfound", "eai_again", "429", "502", "503", "504"]

/-- The alternatives of `NON_RETRYABLE_MESSAGE_PATTERN`. -/
def nonRetryablePatterns : List String :=
  ["openrouter_api_key is not configured", "job not found",
   "no file or url provided",
   "generated schema response is missing required fields",
   "extraction response must be a json object"]

/-- The `instanceof` class of an error reaching the worker's handlers:
BullMQ's `UnrecoverableError`, the LLM service's `LlmJsonParseError`,
or a plain `Error`. -/
inductive WorkerErrorKind where
  | unrecoverableError
  | llmJsonParseError
  | genericError
deriving Repr, DecidableEq

/-- An error value as seen by `isRetryableError` / `toErrorContext`:
its class and its `.message` (`getErrorMessage` returns `.message` for
`Error` instances, which is what every worker code path throws). -/
structure WorkerError where
  kind : WorkerErrorKind
  message : String
deriving Repr, DecidableEq

/-- The JS `.name` of the error, used by `toErrorContext` as the error
code and by the `failed` handler to detect unrecoverable failures. -/
def WorkerError.name (e : WorkerError) : String :=
  match e.kind with
  | .unrecoverableError => "UnrecoverableError"
  | .llmJsonParseError => "LlmJsonParseError"
  | .genericError => "Error"

/-- Source `isRetryableError`: `UnrecoverableError` and `LlmJsonParseError`
are never retried; then the non-retryable message pattern wins over the
retryable one; unknown errors default to retry. -/
def isRetryableError (e : WorkerError) : Bool :=
  match e.kind with
  | .unrecoverableError => false
  | .llmJsonParseError => false
  | .genericError =>
    if matchesAny nonRetryablePatterns e.message then false
    else if matchesAny retryablePatterns e.message then true
    else true

/-- Source `UNRECOVERABLE_CODE_PREFIX`. -/
def UNRECOVERABLE_CODE_PREFIX : String := "[cause="

/-- Source `encodeUnrecoverableMessage`. -/
def encodeUnrecoverableMessage (errorCode errorMessage : String) : String :=
  UNRECOVERABLE_CODE_PREFIX ++ errorCode ++ "] " ++ errorMessage

/-- JS `String.prototype.indexOf` for a single character: first index,
`-1` when absent. -/
def jsIndexOfChar (c : Char) (s : List Char) : Int :=
  match s.findIdx? (· = c) with
  | some i => (i : Int)
  | none => -1

/-- JS `String.prototype.trim`: strip whitespace from both ends. -/
def jsTrim (s : String) : String :=
  String.mk ((s.data.dropWhile Char.isWhitespace).reverse.dropWhile
    Char.isWhitespace).reverse

/-- Source `decodeUnrecoverableMessage`: recover `(code, reason)` from a
`[cause=CODE] reason` envelope, `none` when the shape is absent. -/
def decodeUnrecoverableMessage (message : String) : Option (String × String) :=
  if charListStartsWith UNRECOVERABLE_CODE_PREFIX.data message.data then
    let closingBracket := jsIndexOfChar ']' message.data
    if closingBracket ≤ (UNRECOVERABLE_CODE_PREFIX.length : Int) then none
    else
      let code := String.mk ((message.data.take closingBracket.toNat).drop
        UNRECOVERABLE_CODE_PREFIX.length)
      let reason := jsTrim (String.mk (message.data.drop (closingBracket.toNat + 1)))
      if code = "" then none
      else some (code, if reason = "" then "Unrecoverable error" else reason)
  else none

/-- Source `toErrorContext` restricted to `Error` instances: code is the
error's name (never empty for our kinds), message defaults when empty. -/
def toErrorContextMessage (e : WorkerError) : String :=
  if e.message = "" then "Unknown error" else e.message

/-- The error rethrown by `processJob`'s catch block: retryable errors
propagate unchanged, unrecoverable ones are wrapped in an
`UnrecoverableError` whose message encodes the original code. -/
def processJobCatchThrow (e : WorkerError) : WorkerError :=
  if isRetryableError e then e
  else ⟨.unrecoverableError,
        encodeUnrecoverableMessage e.name (toErrorContextMessage e)⟩

/-- What the worker's `failed` listener computes before `failJob`. -/
structure FailedHandlerResult where
  errorCode : String
  errorMessage : String
  shouldRetry : Bool
deriving Repr, DecidableEq

/-- The `worker.on("failed")` handler: decode the unrecoverable
envelope when present; never retry an `UnrecoverableError`, otherwise
retry while attempts remain. -/
def onFailed (errName errMessage : String) (attemptsMade maxAttempts : Nat) :
    FailedHandlerResult :=
  let errorCode := if errName = "" then "PROCESSING_ERROR" else errName
  let errorMessage := if errMessage = "" then "Unknown error occurred" else errMessage
  let shouldRetry := (errName ≠ "UnrecoverableError" : Bool) &&
    decide (attemptsMade < maxAttempts)
  if errName = "UnrecoverableError" then
    match decodeUnrecoverableMessage errorMessage with
    | some p => ⟨p.1, p.2, shouldRetry⟩
    | none => ⟨errorCode, errorMessage, shouldRetry⟩
  else ⟨errorCode, errorMessage, shouldRetry⟩

/-! ## LLM JSON repair (`apps/server/src/services/llm.ts`)

`collectJsonCandidates` + `JSON.parse` turn an LLM response text into a
sequence of parse attempts; we abstract that lexical stage as the list
of per-candidate outcomes and embed the selection / validation logic of
`parseJsonFromText` and `parseJsonWithRepair` over it faithfully. -/

/-- One JSON candidate extracted from a response text: either
`JSON.parse` threw, or it produced a value. -/
inductive JsonCandidate where
  | parseFailure
  | parsed (v : Js)
deriving Repr

/-- Source `getRequiredTopLevelKeys`: string entries of the schema's
`required` array (empty without a schema or a `required` array). -/
def getRequiredTopLevelKeys (schema : Option Js) : List String :=
  match schema with
  | none => []
  | some s =>
    match s.lookup "required" with
    | some (.arr entries) =>
      entries.filterMap fun e => match e with | .str k => some k | _ => none
    | _ => []

/-- Source `buildExtractionValidator`: the value must be a record and, when the
schema declares required top-level keys, carry each of them. -/
def buildExtractionValidator (schema : Option Js) (value : Js) : Bool :=
  isRecord value &&
    (let requiredKeys := getRequiredTopLevelKeys schema
     requiredKeys.isEmpty || requiredKeys.all fun k => (value.lookup k).isSome)

/-- Source `parseJsonFromText`: exactly one valid candidate wins; several are
ambiguous; a parseable but invalid-shape candidate yields the shape
error; otherwise the parse error.  Error strings are the
`LlmJsonParseError` base messages (the source appends a whitespace-
normalised preview of the raw response, which we omit). -/
def parseJsonFromText (validate : Js → Bool) (cands : List JsonCandidate) :
    Except String Js :=
  let parsedVals := cands.filterMap fun c =>
    match c with | .parsed v => some v | .parseFailure => none
  let validMatches := parsedVals.filter validate
  let parsedButInvalidShape := (parsedVals.filter fun v => !validate v).length
  match validMatches with
  | [v] => .ok v
  | _ :: _ :: _ =>
    .error "Ambiguous JSON response: multiple parseable JSON candidates found"
  | [] =>
    if 0 < parsedButInvalidShape then
      .error "Parsed JSON does not match expected shape"
    else .error "JSON Parse error: Unable to parse JSON string"

/-- Source `parseJsonWithRepair`: try the primary response; on failure try the
single repair response; when that fails too, throw the final
`LlmJsonParseError`. -/
def parseJsonWithRepair (validate : Js → Bool)
    (primary repair : List JsonCandidate) : Except String Js :=
  match parseJsonFromText validate primary with
  | .ok v => .ok v
  | .error _ =>
    match parseJsonFromText validate repair with
    | .ok v => .ok v
    | .error _ => .error "JSON Parse error: Unable to parse JSON string"

/-- Source `llmService.processExtraction`'s parse stage: a validation failure
of both responses surfaces as an `LlmJsonParseError`. -/
def runExtractionParse (schema : Option Js)
    (primary repair : List JsonCandidate) : Except WorkerError Js :=
  match parseJsonWithRepair (buildExtractionValidator schema) primary repair with
  | .ok v => .ok v
  | .error m => .error ⟨.llmJsonParseError, m⟩

/-! ## Job store and state machine

The job row and the status-update helpers.  `lib/job-status.ts` is not
part of the provided tree (only its callers in the worker are), so the
three helpers are modelled from the specification. -/

/-- The five job lifecycle states. -/
inductive JobStatus where
  | pending
  | processing
  | extracting
  | completed
  | failed
deriving Repr, DecidableEq

/-- Terminal states. -/
def JobStatus.isTerminal : JobStatus → Bool
  | .completed => true
  | .failed => true
  | _ => false

/-- The fields of a Job row that the pipeline claims reference. -/
structure JobRow where
  status : JobStatus
  fileKey : Option String := none
  sourceUrl : Option String := none
  markdownResult : Option String := none
  jsonResult : Option Js := none
  errorCode : Option String := none
  errorMessage : Option String := none
  pageCount : Option Int := none

/-- Optional field updates carried by a status write. -/
structure StatusPatch where
  markdownResult : Option String := none
  pageCount : Option Int := none

/-- Payload of a terminal `completed` write. -/
structure CompletePayload where
  markdownResult : String
  jsonResult : Option Js := none
  pageCount : Int

/-- Modelled from the spec: `updateJobStatus` of `lib/job-status.ts`
(not under the provided tree).  The spec's Job invariant — status is
monotonic toward a terminal state and never transitions out of one, a
terminal job being immutable — makes the write a no-op on terminal
rows; otherwise it is a field-scoped merge of the new status and
patch. -/
def updateJobStatus (j : JobRow) (s : JobStatus) (patch : StatusPatch) : JobRow :=
  if j.status.isTerminal then j
  else { j with
    status := s,
    markdownResult := patch.markdownResult.or j.markdownResult,
    pageCount := patch.pageCount.or j.pageCount }

/-- Modelled from the spec: `completeJob` of `lib/job-status.ts` (not
under the provided tree).  Writes the terminal `completed` row with its
results; a no-op on already-terminal rows (idempotent terminal
writes). -/
def completeJob (j : JobRow) (p : CompletePayload) : JobRow :=
  if j.status.isTerminal then j
  else { j with
    status := .completed,
    markdownResult := some p.markdownResult,
    jsonResult := p.jsonResult.or j.jsonResult,
    pageCount := some p.pageCount }

/-- Modelled from the spec: `failJob` of `lib/job-status.ts` (not under
the provided tree).  Per the spec, each attempt's failure records the
most recent `errorCode`/`errorMessage` but keeps the job non-terminal
while retries remain; only the terminal-failure call (`shouldRetry =
false`) flips the status to `failed`, and a terminal row never
transitions out of its state. -/
def failJob (j : JobRow) (errorCode errorMessage : String)
    (shouldRetry : Bool) : JobRow :=
  if j.status.isTerminal then j
  else
    { j with
      errorCode := some errorCode,
      errorMessage := some errorMessage,
      status := if shouldRetry then j.status else .failed }

/-- Every Job-store write the pipeline performs after creation. -/
inductive PipelineOp where
  | updateStatus (s : JobStatus) (patch : StatusPatch)
  | complete (p : CompletePayload)
  | fail (errorCode errorMessage : String) (shouldRetry : Bool)

/-- Apply one pipeline write to a row. -/
def applyOp (j : JobRow) : PipelineOp → JobRow
  | .updateStatus s patch => updateJobStatus j s patch
  | .complete p => completeJob j p
  | .fail c m r => failJob j c m r

/-- The worker-side terminal bookkeeping for a failed attempt: wrap the
error as `processJob`'s catch does, run the `failed` listener, apply
`failJob`. -/
def processFailedJobUpdate (e : WorkerError) (attemptsMade maxAttempts : Nat)
    (j : JobRow) : JobRow :=
  let thrown := processJobCatchThrow e
  let r := onFailed thrown.name thrown.message attemptsMade maxAttempts
  failJob j r.errorCode r.errorMessage r.shouldRetry

/-! ## Realtime gateway (`jobsSse` and `jobsWebSocket`)

Both handlers subscribe to the per-job bus channel, await readiness,
re-read the Job snapshot, send a synthesized initial event from that
snapshot and then forward bus messages.  We model the delivered action
trace as a function of the snapshot read after subscription and of the
bus messages delivered to the registered callback afterwards. -/

/-- The realtime event variants (`JobUpdateMessage`).  `statusFailed`
records whether an `error` payload carries `status: "failed"`. -/
inductive RtEvent where
  | statusEv (jobId : String) (status : JobStatus)
  | completedEv (jobId : String) (jsonResult : Option Js)
      (markdownResult : Option String) (processingTimeMs : Option Int)
  | errorEv (jobId : String) (error : String) (statusFailed : Bool)
  | pongEv (jobId : String)
deriving Repr

/-- Terminal event types (`completed` / `error` frames). -/
def RtEvent.isTerminalType : RtEvent → Bool
  | .completedEv _ _ _ _ => true
  | .errorEv _ _ _ => true
  | _ => false

/-- An observable action of a gateway handler towards its subscriber. -/
inductive GatewayAction where
  | send (e : RtEvent)
  | close
deriving Repr

/-- The `completed` event both handlers synthesize from a terminal
snapshot: stored `jsonResult` and `markdownResult`, no
`processingTimeMs`. -/
def synthCompleted (jobId : String) (j : JobRow) : RtEvent :=
  .completedEv jobId j.jsonResult j.markdownResult none

/-- The `error` event both handlers synthesize from a `failed`
snapshot: the stored error message (defaulting to "Job failed") with
`status: "failed"`. -/
def synthFailed (jobId : String) (j : JobRow) : RtEvent :=
  .errorEv jobId (j.errorMessage.getD "Job failed") true

/-- The SSE callback's forwarding loop: each bus message is sent, and
the stream closes right after a `completed` or `error` message, which
also stops forwarding. -/
def sseForward : List RtEvent → List GatewayAction
  | [] => []
  | e :: rest =>
    .send e :: (if e.isTerminalType then [.close] else sseForward rest)

/-- The `start` body of `jobsSse`'s stream (after auth and ownership):
given the snapshot re-read after the subscription became ready and the
bus messages delivered afterwards, the actions sent to the
subscriber. -/
def sseStart (jobId : String) (latest : JobRow) (bus : List RtEvent) :
    List GatewayAction :=
  match latest.status with
  | .completed => [.send (synthCompleted jobId latest), .close]
  | .failed => [.send (synthFailed jobId latest), .close]
  | s => .send (.statusEv jobId s) :: sseForward bus

/-- Source `jobsWebSocket.open`: on auth failure or unknown job, an `error`
frame (without `status: "failed"`) followed by a close; otherwise the
synthesized initial frame from the post-subscribe snapshot, then every
bus message forwarded verbatim — the handler never closes the socket
itself. -/
def wsOpen (jobId : String) (authOk : Bool) (jobAtFirstRead : Option JobRow)
    (latest : JobRow) (bus : List RtEvent) : List GatewayAction :=
  if !authOk then [.send (.errorEv jobId "Unauthorized" false), .close]
  else
    match jobAtFirstRead with
    | none => [.send (.errorEv jobId "Job not found" false), .close]
    | some _ =>
      let initial :=
        match latest.status with
        | .completed => synthCompleted jobId latest
        | .failed => synthFailed jobId latest
        | s => .statusEv jobId s
      .send initial :: bus.map .send

/-- Number of terminal events sent in a trace. -/
def countTerminalSends (as : List GatewayAction) : Nat :=
  as.countP fun a =>
    match a with
    | .send e => e.isTerminalType
    | .close => false

/-- Every terminal event sent is immediately followed by a close. -/
def terminalSendsClosed : List GatewayAction → Bool
  | [] => true
  | .close :: rest => terminalSendsClosed rest
  | .send e :: rest =>
    if e.isTerminalType then
      match rest with
      | .close :: _ => terminalSendsClosed rest
      | _ => false
    else terminalSendsClosed rest

/-! ## Presigned-upload confirm (`JobService.confirmUpload`) -/

/-- An HTTP-mapped error as raised by `lib/errors.ts` classes: the
class's `name` and the message. -/
structure ApiError where
  name : String
  message : String
deriving Repr, DecidableEq

/-- Source `confirmUpload`: look the job up, reject when it is not `pending`,
has no file key or the object is missing from storage; otherwise
enqueue one work item for it.  The job row itself is returned (and
stored) unchanged — notably its status stays `pending`.  The `addJob`
call lives in `services/queue.ts`, which is not under the provided
tree; per the spec the Queue is a durable FIFO of work items, modelled
here as appending the job id to the queue list. -/
def confirmUpload (job : Option JobRow) (storageHasFile : Bool)
    (queue : List String) (jobId : String) :
    Except ApiError (JobRow × List String) :=
  match job with
  | none => .error ⟨"Not Found", "Job not found"⟩
  | some j =>
    if j.status ≠ .pending then
      .error ⟨"Bad Request", "Job has already been submitted"⟩
    else
      match j.fileKey with
      | none => .error ⟨"Bad Request", "Job has no file key"⟩
      | some _ =>
        if !storageHasFile then
          .error ⟨"Bad Request", "File has not been uploaded to storage yet"⟩
        else .ok (j, queue ++ [jobId])

/-! ## Admission validation (`uploadsRoutes`, `parseRoutes`,
`extractRoutes`, `FileConstraints`) -/

/-- Source `FileConstraints.maxSizeBytes`. -/
def maxSizeBytes : Int := 52428800

/-- Source `FileConstraints.supportedFormats`, also the presign body's
`mimeType` union. -/
def allowedMimeTypes : List String :=
  ["application/pdf", "image/png", "image/jpeg", "image/webp", "image/tiff"]

/-- The presign request body. -/
structure PresignBody where
  fileName : String
  fileSize : Int
  mimeType : String
deriving Repr

/-- The presign body schema: `fileName` non-empty, `fileSize` in
`[1, maxSizeBytes]` (inclusive bounds), `mimeType` one of the five
supported formats. -/
def presignBodyValid (b : PresignBody) : Bool :=
  decide (1 ≤ b.fileName.length) && decide (1 ≤ b.fileSize) &&
    decide (b.fileSize ≤ maxSizeBytes) && allowedMimeTypes.contains b.mimeType

/-- A multipart file as the direct-upload routes receive it. -/
structure UploadFile where
  name : String
  size : Int
  mimeType : String
deriving Repr

/-- The direct-upload body schema of `parseRoutes` / `extractRoutes`:
`{ file: t.Optional(t.File()), url: t.Optional(t.String()) }`.  The
schema only checks the field types (already captured by the model
types); it imposes no file-size and no MIME-type constraint. -/
def directUploadBodyValid (_file : Option UploadFile) (_url : Option String) :
    Bool :=
  true

/-- Source `createJobHandler`'s own admission test: a URL is used when it is a
non-empty string starting with "http"; otherwise a file must be
present (else `BadRequestError "File or URL is required"`).  No size or
MIME check occurs on this path either. -/
def createJobHandlerAdmits (file : Option UploadFile) (url : Option String) :
    Bool :=
  match url with
  | some u =>
    if 0 < u.length && u.startsWith "http" then true else file.isSome
  | none => file.isSome

/-! ## SDK client waiter (`waitForCompletedJob`) -/

/-- What one realtime frame makes the waiter do: nothing, resolve with
the completion payload, or reject with `(status, message)`. -/
inductive WaitStep where
  | ignore
  | resolveCompleted (jsonResult : Option Js) (markdownResult : Option String)
      (processingTimeMs : Option Int)
  | rejectError (status : Int) (message : String)
deriving Repr

/-- Source `handleMessage`: drop non-object frames, frames for other jobs and
frames without a `type`; resolve on `completed`; reject on any `error`
frame with the payload's `error` string (or the fallback) — the
payload's `status` field is never consulted. -/
def handleMessage (jobId : String) (raw : Js) : WaitStep :=
  if !isPlainObject raw then .ignore
  else
    match readStringJs (raw.lookup "jobId") with
    | none => .ignore
    | some messageJobId =>
      if messageJobId ≠ jobId then .ignore
      else
        match readStringJs (raw.lookup "type") with
        | none => .ignore
        | some messageType =>
          let messageData :=
            match raw.lookup "data" with
            | some d => if isPlainObject d then d else .obj []
            | none => .obj []
          if messageType = "completed" then
            .resolveCompleted (messageData.lookup "jsonResult")
              (readNullableStringJs (messageData.lookup "markdownResult"))
              (match messageData.lookup "processingTimeMs" with
               | some (.num n) => some n
               | _ => none)
          else if messageType = "error" then
            .rejectError 500
              ((readNullableStringJs (messageData.lookup "error")).getD
                "Realtime job failed.")
          else .ignore

/-- Source `scheduleReconnect`: once `attempts` reaches the configured
maximum, reject with the 503 exhaustion error; otherwise schedule a
reconnect after `baseDelay * 2 ^ max 0 (attempts - 1)` ms. -/
def scheduleReconnect (attempts maxAttempts baseDelayMs : Nat) :
    Except (Int × String) Nat :=
  if maxAttempts ≤ attempts then
    .error (503,
      "Realtime connection closed before completion and retries were exhausted.")
  else .ok (baseDelayMs * 2 ^ (attempts - 1))

/-- The waiter's overall-deadline rejection: fires after `timeoutMs`
and settles the wait immediately (no reconnect happens afterwards). -/
def waiterTimeoutRejection (timeoutMs : Nat) : Int × String :=
  (408, "Timed out after " ++ toString timeoutMs ++
    "ms while waiting for realtime completion.")

/-! ## SDK `parse` / `extract` (`createOcrBase`)

Both functions wrap every fallible step in try/catch and settle to a
`{ data, error }` result.  Each network interaction is modelled as an
oracle input covering every outcome the runtime can produce: the await
threw, or it returned a treaty response with its own `data`/`error`
pair. -/

/-- A `{ data, error }` result as the SDK returns it. -/
structure OcrRes (α : Type) where
  data : Option α
  error : Option Js

/-- Exactly one of `data` and `error` is null. -/
def OcrRes.wellFormed (r : OcrRes α) : Prop :=
  (r.data.isSome ∧ r.error = none) ∨ (r.data = none ∧ r.error.isSome)

/-- Success result. -/
def rOk (a : α) : OcrRes α := ⟨some a, none⟩

/-- Error result. -/
def rErr (e : Js) : OcrRes α := ⟨none, some e⟩

/-- Source `createSdkError`'s value as a JS object. -/
def createSdkErrorJs (status : Int) (message : String) : Js :=
  .obj [("status", .num status),
        ("value", .obj [("message", .str message)])]

/-- The outcome of one awaited treaty call: the promise rejected (the
surrounding try/catch turns it into a 500 SDK error), or it returned a
response with `data` and `error` fields. -/
inductive CallOutcome (α : Type) where
  | threw (message : String)
  | returned (data : Option α) (error : Option Js)

/-- The outcome of `waitForCompletedJob`: it always resolves, with
either a completion payload or an error (its `finish` sets exactly one
of the two). -/
inductive WaitOutcome where
  | payload (jsonResult : Option Js) (markdownResult : Option String)
      (processingTimeMs : Option Int)
  | failure (e : Js)

/-- A job snapshot as `getJobSnapshot` returns it. -/
structure OcrJobS where
  markdownResult : Option String := none
  jsonResult : Option Js := none
  pageCount : Option Int := none
  processingTimeMs : Option Int := none
  llmModel : Option String := none

/-- Source `getJobSnapshot`: `null` when the call threw or the response had an
error, the response data otherwise. -/
def getJobSnapshotModel (c : CallOutcome OcrJobS) : Option OcrJobS :=
  match c with
  | .threw _ => none
  | .returned d e => match e with | some _ => none | none => d

/-- Source `PAGE_SEPARATOR`. -/
def PAGE_SEPARATOR : String := "\n\n---\n\n"

/-- Source `splitMarkdownIntoPages`: 1-based page texts. -/
def splitMarkdownIntoPages (markdown : String) : List (Int × String) :=
  if markdown.length = 0 then []
  else (markdown.splitOn PAGE_SEPARATOR).enum.map fun p => ((p.1 : Int) + 1, p.2)

/-- Source `applyPageFilter`: keep the requested positive page numbers (an
empty or missing request keeps everything). -/
def applyPageFilter (pages : List (Int × String)) (selected : Option (List Int)) :
    List (Int × String) :=
  match selected with
  | none => pages
  | some sel =>
    if sel.isEmpty then pages
    else
      let wanted := sel.filter fun n => 0 < n
      pages.filter fun p => wanted.contains p.1

/-- Source `pagesToText`. -/
def pagesToText (pages : List (Int × String)) : String :=
  String.intercalate PAGE_SEPARATOR (pages.map fun p => p.2)

/-- Source `DEFAULT_PARSE_MODEL`. -/
def DEFAULT_PARSE_MODEL : String := "paddleocr-vl-1.5"

/-- The SDK's `ParseOutput`. -/
structure ParseOutput where
  jobId : String
  model : String
  pageCount : Int
  processingMs : Int
  pages : List (Int × String)
  text : String

/-- The SDK's `ExtractOutput`. -/
structure ExtractOutput where
  confidence : Option Int
  data : Js
  jobId : String
  model : String
  pageCount : Int
  processingMs : Int

/-- Every runtime outcome `parse` can encounter. -/
structure ParseOracle where
  /-- Source `normalizeDocumentRequest` result (it throws on bad inputs). -/
  normalize : Except String Unit
  /-- Source `client.v1.parse.post`; the returned data is the job response. -/
  submit : CallOutcome Js
  /-- Source `waitForCompletedJob`. -/
  wait : WaitOutcome
  /-- Source `client.v1.jobs({ id }).get()` inside `getJobSnapshot`. -/
  snapshotCall : CallOutcome OcrJobS

/-- Source `createOcrBase(...).parse`: an exact translation of its control
flow over the oracle's outcomes. -/
def sdkParse (o : ParseOracle) (inputPages : Option (List Int)) :
    OcrRes ParseOutput :=
  match o.normalize with
  | .error m => rErr (createSdkErrorJs 500 m)
  | .ok _ =>
    match o.submit with
    | .threw m => rErr (createSdkErrorJs 500 m)
    | .returned d e =>
      match e with
      | some err => rErr err
      | none =>
        match readStringJs ((d.getD .null).lookup "id") with
        | none => rErr (createSdkErrorJs 500
            "Parse request succeeded but response did not include a job id.")
        | some jobId =>
          match o.wait with
          | .failure err => rErr err
          | .payload _ markdownResult processingTimeMs =>
            let snapshot := getJobSnapshotModel o.snapshotCall
            let markdown :=
              (markdownResult.or (snapshot.bind fun s => s.markdownResult)).getD ""
            let allPages := splitMarkdownIntoPages markdown
            let selectedPages := applyPageFilter allPages inputPages
            let pageCount :=
              match inputPages with
              | some sel =>
                if sel.isEmpty then
                  (snapshot.bind fun s => s.pageCount).getD
                    (selectedPages.length : Int)
                else (selectedPages.length : Int)
              | none =>
                (snapshot.bind fun s => s.pageCount).getD
                  (selectedPages.length : Int)
            rOk
              { jobId := jobId
                model := DEFAULT_PARSE_MODEL
                pageCount := pageCount
                processingMs :=
                  (processingTimeMs.or
                    (snapshot.bind fun s => s.processingTimeMs)).getD 0
                pages := selectedPages
                text := pagesToText selectedPages }

/-- Every runtime outcome `extract` can encounter. -/
structure ExtractOracle where
  /-- Source `normalizeDocumentRequest` result. -/
  normalize : Except String Unit
  /-- Source `input.schema` as given by the caller. -/
  schemaInput : Js
  /-- Source `z.toJSONSchema` when the zod branch is taken (external call:
  throws or returns a converted plain object). -/
  zodOutcome : Except String Js
  /-- Source `client.v1.schemas.post`. -/
  schemaCreate : CallOutcome Js
  /-- Source `client.v1.extract.post`. -/
  extractSubmit : CallOutcome Js
  /-- Source `waitForCompletedJob`. -/
  wait : WaitOutcome
  /-- Source `client.v1.jobs({ id }).get()` inside `getJobSnapshot`. -/
  snapshotCall : CallOutcome OcrJobS
  /-- Source `client.v1.schemas({ id }).delete()` inside
  `cleanupTemporarySchema` (its failure is swallowed). -/
  cleanup : CallOutcome Js

/-- Source `schemaToJsonSchema` with the zod branch resolved by the oracle. -/
def schemaToJsonSchemaRun (o : ExtractOracle) : Except String Js :=
  match schemaToJsonSchema o.schemaInput with
  | .passthrough v => .ok v
  | .simple v => .ok v
  | .failure m => .error m
  | .zodBranch =>
    match o.zodOutcome with
    | .ok v => if isPlainObject v then .ok v
        else .error "Failed to convert Zod schema to JSON Schema."
    | .error m => .error m

/-- Source `createOcrBase(...).extract`: an exact translation of its control
flow over the oracle's outcomes.  The `finally` block's schema cleanup
swallows its own failures and cannot change the result. -/
def sdkExtract (o : ExtractOracle) : OcrRes ExtractOutput :=
  match o.normalize with
  | .error m => rErr (createSdkErrorJs 500 m)
  | .ok _ =>
    match schemaToJsonSchemaRun o with
    | .error m => rErr (createSdkErrorJs 500 m)
    | .ok _ =>
      match o.schemaCreate with
      | .threw m => rErr (createSdkErrorJs 500 m)
      | .returned d e =>
        match e with
        | some err => rErr err
        | none =>
          match readStringJs ((d.getD .null).lookup "id") with
          | none => rErr (createSdkErrorJs 500
              "Schema creation succeeded but response did not include schema id.")
          | some _ =>
            match o.extractSubmit with
            | .threw m => rErr (createSdkErrorJs 500 m)
            | .returned d2 e2 =>
              match e2 with
              | some err => rErr err
              | none =>
                match readStringJs ((d2.getD .null).lookup "id") with
                | none => rErr (createSdkErrorJs 500
                    "Extract request succeeded but response did not include a job id.")
                | some jobId =>
                  match o.wait with
                  | .failure err => rErr err
                  | .payload jsonResult _ processingTimeMs =>
                    let snapshot := getJobSnapshotModel o.snapshotCall
                    rOk
                      { confidence := none
                        data :=
                          (jsonResult.or
                            (snapshot.bind fun s => s.jsonResult)).getD (.obj [])
                        jobId := jobId
                        model :=
                          (snapshot.bind fun s => s.llmModel).getD "unknown"
                        pageCount :=
                          (snapshot.bind fun s => s.pageCount).getD 0
                        processingMs :=
                          (processingTimeMs.or
                            (snapshot.bind fun s => s.processingTimeMs)).getD 0 }

/-! ## Helper lemmas -/

/-- Results built by `rOk` are well-formed. -/
theorem wellFormed_rOk (a : α) : (rOk a : OcrRes α).wellFormed :=
  Or.inl ⟨rfl, rfl⟩

/-- Results built by `rErr` are well-formed. -/
theorem wellFormed_rErr (e : Js) : (rErr e : OcrRes α).wellFormed :=
  Or.inr ⟨rfl, rfl⟩

/-- A failed `parseJsonWithRepair` always reports the final rethrown
parse-error message. -/
theorem parseJsonWithRepair_error_msg (validate : Js → Bool)
    (primary repair : List JsonCandidate) (m : String)
    (h : parseJsonWithRepair validate primary repair = .error m) :
    m = "JSON Parse error: Unable to parse JSON string" := by
  unfold parseJsonWithRepair at h
  cases h1 : parseJsonFromText validate primary with
  | ok v => rw [h1] at h; cases h
  | error m1 =>
    rw [h1] at h
    cases h2 : parseJsonFromText validate repair with
    | ok v => rw [h2] at h; cases h
    | error m2 =>
      rw [h2] at h
      injection h with h3
      exact h3.symm

/-- A terminal job row is a fixed point of every pipeline write. -/
theorem applyOp_terminal_fixed (j : JobRow) (op : PipelineOp)
    (h : j.status.isTerminal = true) : applyOp j op = j := by
  cases op <;> simp [applyOp, updateJobStatus, completeJob, failJob, h]

/-- The SSE forwarding loop closes right after every terminal send. -/
theorem sseForward_terminalSendsClosed (bus : List RtEvent) :
    terminalSendsClosed (sseForward bus) = true := by
  induction bus with
  | nil => rfl
  | cons e rest ih =>
    by_cases he : e.isTerminalType = true
    · simp [sseForward, terminalSendsClosed, he]
    · simp only [Bool.not_eq_true] at he
      simp [sseForward, terminalSendsClosed, he, ih]

/-- A close action appears in a trace. -/
def hasClose (as : List GatewayAction) : Bool :=
  as.any fun a => match a with | .close => true | .send _ => false

/-- Forwarded bus messages contain no close action. -/
theorem hasClose_map_send (bus : List RtEvent) :
    hasClose (bus.map .send) = false := by
  simp [hasClose]

/-- The `failed` handler never retries an `UnrecoverableError`. -/
theorem onFailed_unrecoverable_noRetry (msg : String) (n mx : Nat) :
    (onFailed "UnrecoverableError" msg n mx).shouldRetry = false := by
  have hne : (decide ("UnrecoverableError" ≠ "UnrecoverableError")) = false := by
    decide
  rcases hd : decodeUnrecoverableMessage (if msg = "" then "Unknown error occurred" else msg) with _ | p <;>
    simp [onFailed, hd, hne]

/-! ## C9 — JSON-Schema passthrough in the SDK -/

/-- C9 counterexample: the plain object `{_zod: {}, properties: {}}`
carries the JSON-Schema hint key `properties`, yet `schemaToJsonSchema`
takes the zod branch (the `isZodSchema` test runs first and only checks
for a `_zod` property of object type), so the object is not returned
unchanged. -/
theorem c9_zod_key_beats_passthrough :
    looksLikeJsonSchema (Js.obj [("_zod", Js.obj []), ("properties", Js.obj [])])
      = true
    ∧ schemaToJsonSchema (Js.obj [("_zod", Js.obj []), ("properties", Js.obj [])])
        = SchemaNormOutcome.zodBranch
    ∧ schemaToJsonSchema (Js.obj [("_zod", Js.obj []), ("properties", Js.obj [])])
        ≠ SchemaNormOutcome.passthrough
            (Js.obj [("_zod", Js.obj []), ("properties", Js.obj [])]) := by
  refine ⟨rfl, rfl, fun h => ?_⟩
  exact SchemaNormOutcome.noConfusion h

/-- C9 (amended): `schemaToJsonSchema` returns its argument unchanged
on every plain object that carries at least one JSON-Schema hint key,
provided the object does not also carry a `_zod` property of object
type (such objects are routed to the zod conversion first); the
passthrough value is then forwarded verbatim. -/
theorem c9_json_schema_passthrough (schema : Js)
    (hzod : isZodSchema schema = false)
    (hhint : looksLikeJsonSchema schema = true) :
    schemaToJsonSchema schema = .passthrough schema := by
  unfold schemaToJsonSchema
  simp [hzod, hhint]

/-- C9 witness: a concrete JSON-Schema-shaped object passes through. -/
theorem c9_json_schema_passthrough_witness :
    schemaToJsonSchema (Js.obj [("properties", Js.obj []),
        ("required", Js.arr [Js.str "total"])])
      = SchemaNormOutcome.passthrough (Js.obj [("properties", Js.obj []),
        ("required", Js.arr [Js.str "total"])]) :=
  c9_json_schema_passthrough _ rfl rfl

/-! ## C4 — worker failure classification -/

/-- C4: `isRetryableError` maps `UnrecoverableError` and
`LlmJsonParseError` instances and messages matching the non-retryable
pattern to no-retry; messages matching the transient pattern (and not
the non-retryable one, which is tested first) to retry; and every
other error to retry by default.  Errors classified as non-retryable
are wrapped as `UnrecoverableError`, which makes the `failed` handler
compute `shouldRetry = false` whatever `maxAttempts` is. -/
theorem c4_failure_classification :
    (∀ m, isRetryableError ⟨.unrecoverableError, m⟩ = false)
    ∧ (∀ m, isRetryableError ⟨.llmJsonParseError, m⟩ = false)
    ∧ (∀ m, matchesAny nonRetryablePatterns m = true →
        isRetryableError ⟨.genericError, m⟩ = false)
    ∧ (∀ m, matchesAny nonRetryablePatterns m = false →
        matchesAny retryablePatterns m = true →
        isRetryableError ⟨.genericError, m⟩ = true)
    ∧ (∀ m, matchesAny nonRetryablePatterns m = false →
        matchesAny retryablePatterns m = false →
        isRetryableError ⟨.genericError, m⟩ = true)
    ∧ (∀ (e : WorkerError) (attemptsMade maxAttempts : Nat),
        isRetryableError e = false →
        (onFailed (processJobCatchThrow e).name (processJobCatchThrow e).message
          attemptsMade maxAttempts).shouldRetry = false) := by
  refine ⟨fun m => rfl, fun m => rfl, ?_, ?_, ?_, ?_⟩
  · intro m h; simp [isRetryableError, h]
  · intro m h1 h2; simp [isRetryableError, h1, h2]
  · intro m h1 h2; simp [isRetryableError, h1, h2]
  · intro e attemptsMade maxAttempts h
    simp only [processJobCatchThrow, h, Bool.false_eq_true, if_false]
    exact onFailed_unrecoverable_noRetry _ _ _

/-- C4 witness: concrete classifications — a non-retryable message, a
transient message, an unknown message, and the no-retry terminal
bookkeeping for an `LlmJsonParseError`. -/
theorem c4_failure_classification_witness :
    isRetryableError ⟨.genericError, "Job not found: job_42"⟩ = false
    ∧ isRetryableError ⟨.genericError, "fetch failed: ECONNRESET"⟩ = true
    ∧ isRetryableError ⟨.genericError, "mystery failure"⟩ = true
    ∧ (onFailed
        (processJobCatchThrow ⟨.llmJsonParseError, "bad json"⟩).name
        (processJobCatchThrow ⟨.llmJsonParseError, "bad json"⟩).message
        0 3).shouldRetry = false := by
  refine ⟨?_, ?_, ?_, ?_⟩
  · exact c4_failure_classification.2.2.1 _ (by decide)
  · exact c4_failure_classification.2.2.2.1 _ (by decide) (by decide)
  · exact c4_failure_classification.2.2.2.2.1 _ (by decide) (by decide)
  · exact c4_failure_classification.2.2.2.2.2 _ 0 3 rfl

/-! ## C5 — double LLM parse failure -/

/-- C5 counterexample: a concrete extract attempt whose LLM response
parses to a non-object and whose repair response does not parse at all.
The job does end `failed` without retry, but the stored error code is
the decoded error name `LlmJsonParseError` — the code `LLM_PARSE_FAILED`
does not occur. -/
theorem c5_errorCode_is_error_name :
    (processFailedJobUpdate ⟨.llmJsonParseError,
        "JSON Parse error: Unable to parse JSON string"⟩ 0 3
      { status := .extracting }).status = .failed
    ∧ (processFailedJobUpdate ⟨.llmJsonParseError,
        "JSON Parse error: Unable to parse JSON string"⟩ 0 3
      { status := .extracting }).errorCode = some "LlmJsonParseError"
    ∧ runExtractionParse (some (.obj [("required", .arr [.str "total"])]))
        [.parsed (.arr [])] [.parseFailure]
      = .error ⟨.llmJsonParseError, "JSON Parse error: Unable to parse JSON string"⟩
    ∧ "LlmJsonParseError" ≠ "LLM_PARSE_FAILED" := by
  refine ⟨rfl, rfl, rfl, by decide⟩

/-- C5 (amended): when the LLM extraction response fails the
JSON-object / required-top-level-key validation and the single repair
attempt also fails, the raised `LlmJsonParseError` is classified
unrecoverable, the `failed` handler computes `shouldRetry = false`
regardless of `maxAttempts`, and the job ends with `status = failed`
and `errorCode = "LlmJsonParseError"` (the error's decoded name). -/
theorem c5_llm_parse_failure_terminal (schema : Option Js)
    (primary repair : List JsonCandidate) (e : WorkerError) (j : JobRow)
    (attemptsMade maxAttempts : Nat)
    (hrun : runExtractionParse schema primary repair = .error e)
    (hj : j.status = .extracting) :
    (processFailedJobUpdate e attemptsMade maxAttempts j).status = .failed
    ∧ (processFailedJobUpdate e attemptsMade maxAttempts j).errorCode
        = some "LlmJsonParseError"
    ∧ (onFailed (processJobCatchThrow e).name (processJobCatchThrow e).message
        attemptsMade maxAttempts).shouldRetry = false := by
  unfold runExtractionParse at hrun
  cases hp : parseJsonWithRepair (buildExtractionValidator schema) primary repair with
  | ok v => rw [hp] at hrun; cases hrun
  | error m =>
    rw [hp] at hrun
    injection hrun with he
    have hm := parseJsonWithRepair_error_msg _ _ _ _ hp
    subst hm
    subst he
    have hterm : j.status.isTerminal = false := by rw [hj]; rfl
    refine ⟨?_, ?_, rfl⟩
    · show (failJob j "LlmJsonParseError"
        "JSON Parse error: Unable to parse JSON string" false).status = .failed
      simp [failJob, hterm]
    · show (failJob j "LlmJsonParseError"
        "JSON Parse error: Unable to parse JSON string" false).errorCode
        = some "LlmJsonParseError"
      simp [failJob, hterm]

/-- C5 witness: the amended theorem applied to the concrete failing
responses of the counterexample scenario. -/
theorem c5_llm_parse_failure_terminal_witness :
    (processFailedJobUpdate ⟨.llmJsonParseError,
        "JSON Parse error: Unable to parse JSON string"⟩ 0 5
      { status := .extracting, markdownResult := some "# invoice" }).status
      = .failed := by
  exact (c5_llm_parse_failure_terminal
    (some (.obj [("required", .arr [.str "total"])]))
    [.parsed (.arr [])] [.parseFailure] _ _ 0 5 rfl rfl).1

/-! ## C3 — terminal states are absorbing -/

/-- C3: once a job row is terminal, every sequence of pipeline writes
(status updates, completion writes, failure writes) leaves the row
unchanged — every subsequent read returns the same terminal status —
and in particular the `pending → processing` write a worker attempt
performs right after dequeue does not move a terminal job back to
`processing`. -/
theorem c3_terminal_immutable (j : JobRow) (h : j.status.isTerminal = true) :
    (∀ ops : List PipelineOp, (ops.foldl applyOp j).status = j.status)
    ∧ (∀ patch, (updateJobStatus j .processing patch).status = j.status) := by
  constructor
  · intro ops
    have hfix : ops.foldl applyOp j = j := by
      induction ops with
      | nil => rfl
      | cons op rest ih =>
        rw [List.foldl_cons, applyOp_terminal_fixed j op h]
        exact ih
    rw [hfix]
  · intro patch
    simp [updateJobStatus, h]

/-- C3 witness: a completed job survives a worker re-dequeue (the
`processing` write), a failure write and a completion write with its
status intact. -/
theorem c3_terminal_immutable_witness :
    (([PipelineOp.updateStatus .processing {},
       PipelineOp.fail "OCR_FAILED" "boom" false,
       PipelineOp.complete ⟨"# other", none, 2⟩].foldl applyOp
      { status := .completed, markdownResult := some "# doc" }).status
      = .completed) := by
  exact (c3_terminal_immutable
    { status := .completed, markdownResult := some "# doc" } rfl).1 _

/-! ## C1 — subscribe-then-snapshot protocol -/

/-- C1: after the bus subscription is ready, both gateway profiles act
on the re-read snapshot: a terminal snapshot yields the synthesized
`completed` / `error` event built from the stored row (no bus publish
involved — the trace shape is independent of the bus messages), a
non-terminal snapshot yields a `status` event followed by the
forwarded bus messages; and a subscriber arriving when the job is
already terminal (so the bus carries no further terminal publishes)
receives exactly one terminal event. -/
theorem c1_subscribe_then_snapshot (jobId : String) (latest j0 : JobRow)
    (bus : List RtEvent) :
    (latest.status = .completed →
      sseStart jobId latest bus = [.send (synthCompleted jobId latest), .close]
      ∧ wsOpen jobId true (some j0) latest bus
          = .send (synthCompleted jobId latest) :: bus.map .send)
    ∧ (latest.status = .failed →
      sseStart jobId latest bus = [.send (synthFailed jobId latest), .close]
      ∧ wsOpen jobId true (some j0) latest bus
          = .send (synthFailed jobId latest) :: bus.map .send)
    ∧ (latest.status.isTerminal = false →
      sseStart jobId latest bus
        = .send (.statusEv jobId latest.status) :: sseForward bus
      ∧ wsOpen jobId true (some j0) latest bus
          = .send (.statusEv jobId latest.status) :: bus.map .send)
    ∧ (latest.status.isTerminal = true →
      countTerminalSends (sseStart jobId latest bus) = 1
      ∧ ((∀ e ∈ bus, e.isTerminalType = false) →
        countTerminalSends (wsOpen jobId true (some j0) latest bus) = 1)) := by
  refine ⟨?_, ?_, ?_, ?_⟩
  · intro h
    constructor
    · simp [sseStart, h]
    · simp [wsOpen, h]
  · intro h
    constructor
    · simp [sseStart, h]
    · simp [wsOpen, h]
  · intro h
    cases hs : latest.status <;> rw [hs] at h <;> try cases h
    all_goals exact ⟨by simp [sseStart, hs], by simp [wsOpen, hs]⟩
  · intro h
    constructor
    · cases hs : latest.status <;> rw [hs] at h <;> try cases h
      all_goals simp [sseStart, hs, countTerminalSends, synthCompleted,
        synthFailed, RtEvent.isTerminalType, List.countP_cons]
    · intro hbus
      have hzero : List.countP
          ((fun a => match a with
            | GatewayAction.send e => e.isTerminalType
            | GatewayAction.close => false) ∘ GatewayAction.send) bus = 0 := by
        rw [List.countP_eq_zero]
        intro e he
        simpa using hbus e he
      cases hs : latest.status <;> rw [hs] at h <;> try cases h
      · have hw : wsOpen jobId true (some j0) latest bus
            = .send (synthCompleted jobId latest) :: bus.map .send := by
          simp [wsOpen, hs]
        unfold countTerminalSends
        rw [hw, List.countP_cons, List.countP_map, hzero]
        rfl
      · have hw : wsOpen jobId true (some j0) latest bus
            = .send (synthFailed jobId latest) :: bus.map .send := by
          simp [wsOpen, hs]
        unfold countTerminalSends
        rw [hw, List.countP_cons, List.countP_map, hzero]
        rfl

/-- C1 witness: a subscriber that arrives after a job completed (and
the bus is silent) gets exactly one terminal event on each profile. -/
theorem c1_subscribe_then_snapshot_witness :
    countTerminalSends (sseStart "job_1"
        { status := .completed, markdownResult := some "# doc" } []) = 1
    ∧ countTerminalSends (wsOpen "job_1" true
        (some { status := .completed, markdownResult := some "# doc" })
        { status := .completed, markdownResult := some "# doc" } []) = 1 := by
  have h := (c1_subscribe_then_snapshot "job_1"
    { status := .completed, markdownResult := some "# doc" }
    { status := .completed, markdownResult := some "# doc" } []).2.2.2 rfl
  exact ⟨h.1, h.2 (by intro e he; cases he)⟩

/-! ## C6 — stream closing after terminal events -/

/-- C6 counterexample: for a job already completed, the WebSocket
`open` handler sends the terminal `completed` frame and performs no
close at all — the claim that both realtime profiles close the stream
after forwarding `completed` or `error` fails on the WebSocket
profile. -/
theorem c6_ws_does_not_close :
    wsOpen "job_1" true (some { status := .completed })
        { status := .completed, markdownResult := some "# doc" } []
      = [.send (.completedEv "job_1" none (some "# doc") none)]
    ∧ terminalSendsClosed (wsOpen "job_1" true (some { status := .completed })
        { status := .completed, markdownResult := some "# doc" } []) = false
    ∧ hasClose (wsOpen "job_1" true (some { status := .completed })
        { status := .completed, markdownResult := some "# doc" } []) = false := by
  exact ⟨rfl, rfl, rfl⟩

/-- C6 (amended): the SSE gateway closes the stream immediately after
every `completed` or `error` event it sends (synthesized or forwarded);
the WebSocket gateway never closes the socket after an admitted
subscription — terminal frames included — leaving the close to the
client (it closes only on the pre-subscription auth-failure and
job-not-found paths). -/
theorem c6_close_after_terminal (jobId : String) (latest j0 : JobRow)
    (bus : List RtEvent) :
    terminalSendsClosed (sseStart jobId latest bus) = true
    ∧ hasClose (wsOpen jobId true (some j0) latest bus) = false := by
  constructor
  · cases hs : latest.status <;>
      simp [sseStart, hs, terminalSendsClosed, synthCompleted, synthFailed,
        RtEvent.isTerminalType, sseForward_terminalSendsClosed]
  · cases hs : latest.status <;>
      simp [wsOpen, hs, hasClose, hasClose_map_send, synthCompleted,
        synthFailed]

/-! ## C2 — double confirm on the presigned flow -/

/-- C2 counterexample: a second `confirm` on a job that has left
`pending` is rejected with `BadRequestError` ("Bad Request" /
"Job has already been submitted"); the stable error `ALREADY_CONFIRMED`
does not exist in the code. -/
theorem c2_no_already_confirmed_error :
    confirmUpload
        (some { status := .processing, fileKey := some "org_1/jobs/job_1/a.pdf" })
        true [] "job_1"
      = .error ⟨"Bad Request", "Job has already been submitted"⟩
    ∧ "Job has already been submitted" ≠ "ALREADY_CONFIRMED"
    ∧ "Bad Request" ≠ "ALREADY_CONFIRMED" := by
  exact ⟨rfl, by decide, by decide⟩

/-- C2 (amended): the first `confirm` on a `pending` job with an
uploaded object succeeds and enqueues exactly one Work Item; `confirm`
itself leaves the job row (and its `pending` status) unchanged, so a
repeat call is rejected — with `BadRequestError` "Job has already been
submitted", not `ALREADY_CONFIRMED` — only once the job has left
`pending` (when the worker has picked it up), and a rejected call
enqueues nothing. -/
theorem c2_confirm_twice (job : JobRow) (storage : Bool)
    (queue : List String) (jobId fileKey : String) :
    (job.status = .pending → job.fileKey = some fileKey → storage = true →
      confirmUpload (some job) storage queue jobId
        = .ok (job, queue ++ [jobId]))
    ∧ (job.status ≠ .pending →
      confirmUpload (some job) storage queue jobId
        = .error ⟨"Bad Request", "Job has already been submitted"⟩) := by
  constructor
  · intro hp hk hs
    simp [confirmUpload, hp, hk, hs]
  · intro hnp
    simp [confirmUpload, hnp]

/-- C2 witness: a concrete first confirm enqueues one item, and the
repeat after the worker moved the job to `processing` is rejected. -/
theorem c2_confirm_twice_witness :
    confirmUpload (some { status := .pending, fileKey := some "k" }) true []
        "job_1"
      = .ok ({ status := .pending, fileKey := some "k" }, ["job_1"])
    ∧ confirmUpload (some { status := .processing, fileKey := some "k" }) true
        ["job_1"] "job_1"
      = .error ⟨"Bad Request", "Job has already been submitted"⟩ := by
  constructor
  · exact (c2_confirm_twice { status := .pending, fileKey := some "k" } true []
      "job_1" "k").1 rfl rfl rfl
  · exact (c2_confirm_twice { status := .processing, fileKey := some "k" } true
      ["job_1"] "job_1" "k").2 (by intro h; cases h)

/-! ## C7 — file size and MIME admission boundaries -/

/-- C7 counterexample: on the direct-upload admission path a file of
52,428,801 bytes (50 MiB + 1) with MIME type `text/plain` passes both
the route's body schema and `createJobHandler`'s own test — the
boundary the claim states for every admission path is enforced only by
the presign body schema. -/
theorem c7_direct_path_unvalidated :
    directUploadBodyValid (some ⟨"big.bin", 52428801, "text/plain"⟩) none = true
    ∧ createJobHandlerAdmits (some ⟨"big.bin", 52428801, "text/plain"⟩) none
        = true
    ∧ presignBodyValid ⟨"big.bin", 52428801, "text/plain"⟩ = false := by
  refine ⟨rfl, rfl, by decide⟩

/-- C7 (amended): the presign body schema accepts a file of exactly
52,428,800 bytes precisely when the name is non-empty and the MIME
type is one of the five supported formats, and rejects 52,428,801
bytes outright; the direct-upload body schema imposes no size or MIME
constraint at all. -/
theorem c7_boundaries :
    (∀ name mime, presignBodyValid ⟨name, 52428800, mime⟩
      = (decide (1 ≤ name.length) && allowedMimeTypes.contains mime))
    ∧ (∀ name mime, presignBodyValid ⟨name, 52428801, mime⟩ = false)
    ∧ (∀ file url, directUploadBodyValid file url = true) := by
  refine ⟨?_, ?_, fun _ _ => rfl⟩
  · intro name mime
    simp [presignBodyValid, maxSizeBytes]
  · intro name mime
    simp [presignBodyValid, maxSizeBytes]

/-! ## C8 — SDK waiter rejection and reconnection -/

/-- C8 counterexample: the waiter's message handler rejects on an
`error` event whose payload has no `status: "failed"` marker (a
transport-style error frame), so job-failure events are not the only
`error` events that lead to rejection; and the post-exhaustion
rejection carries a 503 message, not `REALTIME_UNAVAILABLE`. -/
theorem c8_error_without_status_rejects :
    handleMessage "job_1"
        (.obj [("data", .obj [("error", .str "Subscription failed")]),
               ("jobId", .str "job_1"), ("type", .str "error")])
      = .rejectError 500 "Subscription failed"
    ∧ scheduleReconnect 5 5 500
      = .error (503,
        "Realtime connection closed before completion and retries were exhausted.")
    ∧ "Realtime connection closed before completion and retries were exhausted."
      ≠ "REALTIME_UNAVAILABLE" := by
  refine ⟨rfl, rfl, by decide⟩

/-- C8 (amended): the waiter rejects with the payload's error message
on every `error` event for its job — whether or not the payload
carries `status: "failed"` — and resolves on `completed`; a connection
close before a terminal event schedules a reconnect with exponential
backoff `base * 2 ^ (attempts - 1)` while attempts remain, and after
exhaustion rejects with the 503 message "Realtime connection closed
before completion and retries were exhausted." (no `REALTIME_UNAVAILABLE`
code); the overall deadline rejects with a 408 timeout error instead of
retrying. -/
theorem c8_waiter_behavior (jobId m md : String) (extra : List (String × Js))
    (attempts maxAttempts baseDelay timeoutMs : Nat)
    (hjob : 0 < jobId.length) :
    (handleMessage jobId
        (.obj [("data", .obj (("error", .str m) :: extra)),
               ("jobId", .str jobId), ("type", .str "error")])
      = .rejectError 500 m)
    ∧ (handleMessage jobId
        (.obj [("data", .obj [("markdownResult", .str md)]),
               ("jobId", .str jobId), ("type", .str "completed")])
      = .resolveCompleted none (some md) none)
    ∧ (maxAttempts ≤ attempts →
      scheduleReconnect attempts maxAttempts baseDelay
        = .error (503,
          "Realtime connection closed before completion and retries were exhausted."))
    ∧ (attempts < maxAttempts →
      scheduleReconnect attempts maxAttempts baseDelay
        = .ok (baseDelay * 2 ^ (attempts - 1)))
    ∧ (waiterTimeoutRejection timeoutMs).1 = 408 := by
  refine ⟨?_, ?_, ?_, ?_, rfl⟩
  · simp only [handleMessage, readStringJs, Js.lookup, readNullableStringJs,
      isPlainObject, List.lookup, hjob]
    simp [hjob]
    rfl
  · simp only [handleMessage, readStringJs, Js.lookup, readNullableStringJs,
      isPlainObject, List.lookup, hjob]
    simp [hjob]
    rfl
  · intro h
    simp [scheduleReconnect, h]
  · intro h
    simp [scheduleReconnect, Nat.not_le.mpr h, h]

/-- C8 witness: concrete frames and reconnect decisions. -/
theorem c8_waiter_behavior_witness :
    handleMessage "job_1"
        (.obj [("data", .obj [("error", .str "boom"),
                 ("status", .str "failed")]),
               ("jobId", .str "job_1"), ("type", .str "error")])
      = .rejectError 500 "boom"
    ∧ scheduleReconnect 2 5 500 = .ok 1000 := by
  have h := c8_waiter_behavior "job_1" "boom" "# md"
    [("status", Js.str "failed")] 2 5 500 60000 (by decide)
  exact ⟨h.1, h.2.2.2.1 (by decide)⟩

/-! ## C10 — the SDK never throws and returns exactly one branch -/

/-- C10: for every outcome of the underlying network calls (each
modelled as an oracle input, including thrown promises), `parse` and
`extract` are total and return a `{ data, error }` result with exactly
one branch set; the temporary-schema cleanup in `extract`'s `finally`
cannot influence the result at all. -/
theorem c10_sdk_total_wellformed :
    (∀ (o : ParseOracle) (pages : Option (List Int)),
      (sdkParse o pages).wellFormed)
    ∧ (∀ o : ExtractOracle, (sdkExtract o).wellFormed)
    ∧ (∀ (o : ExtractOracle) (c c' : CallOutcome Js),
      sdkExtract { o with cleanup := c } = sdkExtract { o with cleanup := c' }) := by
  refine ⟨?_, ?_, ?_⟩
  · intro o pages
    unfold sdkParse
    repeat' split
    all_goals first
      | exact wellFormed_rOk _
      | exact wellFormed_rErr _
  · intro o
    unfold sdkExtract
    repeat' split
    all_goals first
      | exact wellFormed_rOk _
      | exact wellFormed_rErr _
  · intro o c c'
    rfl

end OcrBase
